import Mathlib

/-!
Verification of the FTPdLite server (ftpdlite.py, sha256aes.py) against its
natural-language specification.  The Python source is shallowly embedded:
pure functions become Lean functions, the stateful parts (session registry,
port pool, data-channel handles) become explicit state passing, and the
external collaborators (filesystem, sockets, clock, AES/SHA primitives)
are passed in as parameters or boolean outcomes.
-/

set_option maxHeartbeats 1000000

/-- Embedding of `Session.__init__` state (ftpdlite.py lines 33-138): the
attributes of a client session that the verified claims depend on.  The
control/data stream handles are modelled separately (`DataChan`). -/
structure Session where
  client_ip : String
  client_port : Nat
  username : String
  uid : Int
  gid : Int
  home_dir : String
  working_dir : String
  last_active_time : Nat
  deriving DecidableEq

/-- Python `s.startswith(pre)`: prefix match on the character data. -/
def py_startswith (s pre : String) : Bool :=
  pre.data.isPrefixOf s.data

/-- Python `s.endswith(suf)`: suffix match on the character data. -/
def py_endswith (s suf : String) : Bool :=
  suf.data.isSuffixOf s.data

/-- Python `s.lstrip("/")`: drop every leading '/'. -/
def py_lstrip_slash (s : String) : String :=
  String.mk (s.data.dropWhile (fun ch => ch = '/'))

/-- Python `s.replace(c, new)` for a single-character pattern `c`: each
occurrence of `c` in the original string is replaced by `new` (inserted text
is not rescanned, matching Python's left-to-right single pass). -/
def py_replace_char (s : String) (c : Char) (new : String) : String :=
  String.mk ((s.data.map (fun ch => if ch = c then new.data else [ch])).flatten)

/-- `Session.__init__`: username defaults to "nobody", uid/gid to 65534,
home to "/", working directory to `getcwd()` (passed here as `cwd0`), and
the last-activity timestamp to the current time `now`. -/
def mkSession (client_ip : String) (client_port : Nat) (cwd0 : String) (now : Nat) : Session :=
  { client_ip := client_ip, client_port := client_port, username := "nobody",
    uid := 65534, gid := 65534, home_dir := "/", working_dir := cwd0,
    last_active_time := now }

/-- `Session.has_write_access` (ftpdlite.py lines 140-157): root (uid 0) or
wheel group (gid 10) always pass; uid or gid 65534 and above ("nobody")
always fail; otherwise the path must prefix-match a non-empty home dir. -/
def Session.has_write_access (s : Session) (path : String) : Bool :=
  if s.uid = 0 ∨ s.gid = 10 then true
  else if 65534 ≤ s.uid ∨ 65534 ≤ s.gid then false
  else if s.home_dir ≠ "" ∧ py_startswith path s.home_dir then true
  else false

/-- Python `str.split(sep)` for a single-character separator, on the list of
characters: `"".split(sep)` is `[""]`, adjacent separators give empty parts. -/
def splitOnChar (c : Char) : List Char → List (List Char)
  | [] => [[]]
  | x :: xs =>
    if x = c then [] :: splitOnChar c xs
    else
      match splitOnChar c xs with
      | [] => [[x]]
      | p :: ps => (x :: p) :: ps

/-- Python `s.rsplit("/", 1)[0]`: everything before the last '/', or the whole
string when it has no '/'.  (The source's trailing `or ""` maps "" to ""
and is therefore the identity on the result.) -/
def rsplit_head (s : String) : String :=
  match s.data.reverse.dropWhile (fun ch => ch != '/') with
  | [] => s
  | _ :: rest => String.mk rest.reverse

/-- One step of `FTPdLite.path_join` (ftpdlite.py lines 377-396): the fold
body that appends one component to the accumulated result. -/
def path_join_step (acc comp : String) : String :=
  if py_endswith acc "/" ∧ py_startswith comp "/" then acc ++ py_lstrip_slash comp
  else if py_endswith acc "/" ∨ py_startswith comp "/" then acc ++ comp
  else acc ++ "/" ++ comp

/-- `FTPdLite.path_join(*args)`: fold of `path_join_step` from the empty
string over the components. -/
def path_join (parts : List String) : String :=
  parts.foldl path_join_step ""

/-- The body of `FTPdLite.decode_path`'s component walk: `.` and empty
components are skipped, `..` takes everything before the last '/', any other
component is joined on. -/
def decode_step (acc comp : String) : String :=
  if comp = "." ∨ comp = "" then acc
  else if comp = ".." then rsplit_head acc
  else path_join [acc, comp]

/-- `FTPdLite.decode_path(path, session)` (ftpdlite.py lines 328-359):
absolute-path resolution of a client-supplied path against the session's
working directory and home directory.  `none` models Python `None`. -/
def FTPdLite.decode_path (path : Option String) (session : Session) : String :=
  match path with
  | none => if session.working_dir = "" then "/" else session.working_dir
  | some p =>
    if py_startswith p "-" then
      (if session.working_dir = "" then "/" else session.working_dir)
    else
      let p1 := if py_startswith p "~" then py_replace_char p '~' session.home_dir else p
      let start := if py_startswith p1 "/" then "" else session.working_dir
      let comps := (splitOnChar '/' p1.data).map (fun l => String.mk l)
      let result := comps.foldl decode_step start
      if result = "" then "/" else result

/-- The path each mutating handler passes to `has_write_access`: `dele`
(line 630) resolves the path first. -/
def dele_access_check (s : Session) (filepath : String) : Bool :=
  s.has_write_access (FTPdLite.decode_path (some filepath) s)

/-- `mkd` (line 791) resolves the path first, like `dele`. -/
def mkd_access_check (s : Session) (dirpath : String) : Bool :=
  s.has_write_access (FTPdLite.decode_path (some dirpath) s)

/-- `rmd` (line 1109) checks write access on the raw client string, before
`decode_path` is called (line 1112). -/
def rmd_access_check (s : Session) (dirpath : String) : Bool :=
  s.has_write_access dirpath

/-- `stor` (line 1376) checks write access on the raw client string, before
`decode_path` is called (line 1379). -/
def stor_access_check (s : Session) (filepath : String) : Bool :=
  s.has_write_access filepath

/-- An ordinary (non-root, non-wheel, non-nobody) logged-in user with home
directory `/home/bob`. -/
def bobSession : Session :=
  { client_ip := "192.168.1.20", client_port := 52000, username := "bob",
    uid := 1000, gid := 100, home_dir := "/home/bob", working_dir := "/home/bob",
    last_active_time := 0 }

/-- Claim C1 (code bug, failing input): for the client path
`/home/bob/../../etc/x`, which resolves to `/etc/x` outside the home
directory, `stor` and `rmd` evaluate the write-access check on the raw
client string — which passes, because the raw string textually starts with
`/home/bob` — although the resolved absolute path is denied; `dele` and
`mkd` check the resolved path and deny, as the claim requires of all four. -/
theorem C1_stor_rmd_check_raw_path :
    stor_access_check bobSession "/home/bob/../../etc/x" = true
    ∧ rmd_access_check bobSession "/home/bob/../../etc/x" = true
    ∧ FTPdLite.decode_path (some "/home/bob/../../etc/x") bobSession = "/etc/x"
    ∧ bobSession.has_write_access
        (FTPdLite.decode_path (some "/home/bob/../../etc/x") bobSession) = false
    ∧ dele_access_check bobSession "/home/bob/../../etc/x" = false
    ∧ mkd_access_check bobSession "/home/bob/../../etc/x" = false := by
  decide

/-- Claim C2: `has_write_access` returns true whenever uid = 0 or gid = 10
(the administrative group); otherwise it returns false whenever uid or gid
is 65534 or above (the unprivileged sentinel); for every other identity it
returns true iff the home directory is non-empty and the path
prefix-matches the home directory. -/
theorem C2_has_write_access_cases (s : Session) (path : String) :
    ((s.uid = 0 ∨ s.gid = 10) → s.has_write_access path = true)
    ∧ (¬(s.uid = 0 ∨ s.gid = 10) → (65534 ≤ s.uid ∨ 65534 ≤ s.gid) →
        s.has_write_access path = false)
    ∧ (¬(s.uid = 0 ∨ s.gid = 10) → ¬(65534 ≤ s.uid ∨ 65534 ≤ s.gid) →
        (s.has_write_access path = true ↔
          (s.home_dir ≠ "" ∧ py_startswith path s.home_dir = true))) := by
  unfold Session.has_write_access
  refine ⟨fun h => ?_, fun h1 h2 => ?_, fun h1 h2 => ?_⟩
  · simp [h]
  · simp [h1, h2]
  · simp [h1, h2]

/-- Witness for C2: the three cases at concrete sessions — the default
"nobody" identity is denied, uid 0 is allowed anywhere, and an ordinary
user is allowed exactly under their home. -/
theorem C2_has_write_access_cases_witness :
    (mkSession "10.0.0.1" 1 "/" 0).has_write_access "/etc/x" = false
    ∧ ({ bobSession with uid := 0 }).has_write_access "/etc/x" = true
    ∧ bobSession.has_write_access "/home/bob/f.txt" = true :=
  ⟨(C2_has_write_access_cases (mkSession "10.0.0.1" 1 "/" 0) "/etc/x").2.1
      (by decide) (by decide),
   (C2_has_write_access_cases ({ bobSession with uid := 0 }) "/etc/x").1 (by decide),
   ((C2_has_write_access_cases bobSession "/home/bob/f.txt").2.2
      (by decide) (by decide)).mpr (by decide)⟩

/-- Structure eta for strings: rebuilding a string from its character data
gives the same string. -/
theorem string_mk_data (s : String) : String.mk s.data = s := rfl

/-- Reducing `rsplit_head` once the reversed-and-dropped form of the data is
known to start with '/'. -/
theorem rsplit_head_eq (s : String) (pre : List Char)
    (h : s.data.reverse.dropWhile (fun ch => ch != '/') = '/' :: pre) :
    rsplit_head s = String.mk pre.reverse := by
  unfold rsplit_head
  rw [h]

/-- Claim C3: inside `decode_path`, a `..` component pops exactly one
component off the accumulated absolute path (the part before the last '/'),
popping at the root is a no-op, and concretely `..` against working
directory `/a/b` resolves to `/a` while `..` against `/` resolves to `/`. -/
theorem C3_dotdot_pops_one_component (acc c : String)
    (hc : ∀ ch ∈ c.data, ch ≠ '/') :
    rsplit_head (acc ++ "/" ++ c) = acc
    ∧ rsplit_head "" = ""
    ∧ FTPdLite.decode_path (some "..")
        { bobSession with working_dir := "/a/b" } = "/a"
    ∧ FTPdLite.decode_path (some "..")
        { bobSession with working_dir := "/" } = "/" := by
  refine ⟨?_, rfl, by decide, by decide⟩
  have hd : (acc ++ "/" ++ c).data.reverse.dropWhile (fun ch => ch != '/')
      = '/' :: acc.data.reverse := by
    have hdata : (acc ++ "/" ++ c).data = (acc.data ++ ['/']) ++ c.data := by
      simp [String.data_append]
    rw [hdata, List.reverse_append, List.reverse_append]
    rw [List.dropWhile_append_of_pos (by
      intro a ha
      rw [List.mem_reverse] at ha
      simpa using hc a ha)]
    simp [List.dropWhile_cons]
  rw [rsplit_head_eq _ _ hd, List.reverse_reverse, string_mk_data]

/-- Witness for C3 at a concrete path: popping `..` off `/usr/local`. -/
theorem C3_dotdot_pops_one_component_witness :
    rsplit_head ("/usr" ++ "/" ++ "local") = "/usr"
    ∧ rsplit_head "" = ""
    ∧ FTPdLite.decode_path (some "..")
        { bobSession with working_dir := "/a/b" } = "/a"
    ∧ FTPdLite.decode_path (some "..")
        { bobSession with working_dir := "/" } = "/" :=
  C3_dotdot_pops_one_component "/usr" "local" (by decide)

/-- `FTPdLite.get_pasv_port` (ftpdlite.py lines 484-494): pop the front port
off the pool and append it to the back, returning the port and the new pool.
`none` models the IndexError `pop(0)` would raise on an empty pool. -/
def FTPdLite.get_pasv_port : List Nat → Option (Nat × List Nat)
  | [] => none
  | p :: rest => some (p, rest ++ [p])

/-- The port pool after `k` successive `get_pasv_port` allocations. -/
def pool_after (pool : List Nat) : Nat → List Nat
  | 0 => pool
  | k + 1 =>
    match FTPdLite.get_pasv_port (pool_after pool k) with
    | none => pool_after pool k
    | some (_, next) => next

/-- The port issued by allocation number `k` (0-based). -/
def issued_port (pool : List Nat) (k : Nat) : Option Nat :=
  (FTPdLite.get_pasv_port (pool_after pool k)).map Prod.fst

theorem pool_after_eq_rotate (pool : List Nat) (hne : pool ≠ []) (k : Nat) :
    pool_after pool k = pool.rotate k := by
  induction k with
  | zero => simp [pool_after]
  | succ k ih =>
    have hne2 : pool.rotate k ≠ [] := by
      intro h
      apply hne
      have := List.length_rotate pool k
      rw [h] at this
      exact List.length_eq_zero.mp this.symm
    obtain ⟨p, rest, hpr⟩ := List.exists_cons_of_ne_nil hne2
    have hrot : pool.rotate (k + 1) = rest ++ [p] := by
      rw [← List.rotate_rotate, hpr, List.rotate_cons_succ, List.rotate_zero]
    simp [pool_after, ih, hpr, FTPdLite.get_pasv_port, hrot]

theorem issued_port_eq (pool : List Nat) (hne : pool ≠ []) (k : Nat) :
    issued_port pool k = pool[k % pool.length]? := by
  rw [issued_port, pool_after_eq_rotate pool hne k]
  have hne2 : pool.rotate k ≠ [] := by
    intro h
    apply hne
    have := List.length_rotate pool k
    rw [h] at this
    exact List.length_eq_zero.mp this.symm
  obtain ⟨p, rest, hpr⟩ := List.exists_cons_of_ne_nil hne2
  have hmap : (FTPdLite.get_pasv_port (pool.rotate k)).map Prod.fst
      = (pool.rotate k).head? := by
    rw [hpr]; rfl
  rw [hmap]
  have hlt : k % pool.length < pool.length :=
    Nat.mod_lt _ (List.length_pos.mpr hne)
  rw [← List.rotate_mod, List.head?_rotate hlt]

/-- Claim C5: starting from a non-empty pool of distinct ports, the pool
state and the issued-port sequence repeat with period exactly the pool
size, and no port is issued twice within any window smaller than the pool
size. -/
theorem C5_port_pool_round_robin (pool : List Nat) (hne : pool ≠ [])
    (hnd : pool.Nodup) :
    (∀ k, pool_after pool (k + pool.length) = pool_after pool k)
    ∧ (∀ k, issued_port pool (k + pool.length) = issued_port pool k)
    ∧ (∀ i j, i < j → j - i < pool.length →
        issued_port pool i ≠ issued_port pool j) := by
  refine ⟨fun k => ?_, fun k => ?_, fun i j hij hw heq => ?_⟩
  · rw [pool_after_eq_rotate pool hne, pool_after_eq_rotate pool hne]
    calc pool.rotate (k + pool.length)
        = (pool.rotate k).rotate pool.length :=
          (List.rotate_rotate pool k pool.length).symm
      _ = (pool.rotate k).rotate (pool.rotate k).length := by
          rw [List.length_rotate]
      _ = pool.rotate k := List.rotate_length _
  · rw [issued_port_eq pool hne, issued_port_eq pool hne, Nat.add_mod_right]
  · rw [issued_port_eq pool hne, issued_port_eq pool hne] at heq
    have hlen : 0 < pool.length := List.length_pos.mpr hne
    have hmod : i % pool.length = j % pool.length :=
      List.getElem?_inj (Nat.mod_lt _ hlen) hnd heq
    have hdvd : pool.length ∣ j - i :=
      (Nat.modEq_iff_dvd' (le_of_lt hij)).mp hmod
    exact absurd (Nat.le_of_dvd (Nat.sub_pos_of_lt hij) hdvd) (not_le.mpr hw)

/-- Witness for C5 on the concrete pool [5001, 5002, 5003]. -/
theorem C5_port_pool_round_robin_witness :
    pool_after [5001, 5002, 5003] (1 + 3) = pool_after [5001, 5002, 5003] 1
    ∧ issued_port [5001, 5002, 5003] (0 + 3) = issued_port [5001, 5002, 5003] 0
    ∧ issued_port [5001, 5002, 5003] 0 ≠ issued_port [5001, 5002, 5003] 2 :=
  ⟨(C5_port_pool_round_robin [5001, 5002, 5003] (by decide) (by decide)).1 1,
   (C5_port_pool_round_robin [5001, 5002, 5003] (by decide) (by decide)).2.1 0,
   (C5_port_pool_round_robin [5001, 5002, 5003] (by decide) (by decide)).2.2 0 2
     (by decide) (by decide)⟩

/-- `FTPdLite.find_session` (ftpdlite.py lines 462-482): if the search value
is non-empty and starts with a digit, filter the registry by client IP,
otherwise by username. -/
def FTPdLite.find_session (search_value : String) (sessions : List Session) :
    List Session :=
  match search_value.data with
  | ch :: _ =>
    if ch.isDigit then sessions.filter (fun s => s.client_ip == search_value)
    else sessions.filter (fun s => s.username == search_value)
  | [] => sessions.filter (fun s => s.username == search_value)

/-- `idle_minutes` as computed in `kick_stale` (line 1483): whole minutes of
inactivity, by integer division. -/
def idle_minutes (now : Nat) (s : Session) : Nat :=
  (now - s.last_active_time) / 60

/-- The eviction condition of `kick_stale` (line 1487): strictly more whole
idle minutes than the timeout. -/
def is_stale (timeout now : Nat) (s : Session) : Bool :=
  timeout < idle_minutes now s

/-- One sweep of the `kick_stale` loop body (ftpdlite.py lines 1480-1489).
The Python code deletes from `self._session_list` while iterating over it,
so after a deletion the list iterator skips the element that followed the
deleted one; the second equation reproduces that CPython behaviour. -/
def FTPdLite.kick_stale_sweep (timeout now : Nat) : List Session → List Session
  | [] => []
  | [s] => if is_stale timeout now s then [] else [s]
  | s :: t :: rest =>
    if is_stale timeout now s then t :: FTPdLite.kick_stale_sweep timeout now rest
    else s :: FTPdLite.kick_stale_sweep timeout now (t :: rest)

theorem sweep_keeps_fresh (timeout now : Nat) :
    ∀ (l : List Session) (s : Session), s ∈ l → is_stale timeout now s = false →
      s ∈ FTPdLite.kick_stale_sweep timeout now l
  | [], s, h, _ => absurd h (by simp)
  | [t], s, h, hf => by
    rcases List.mem_singleton.mp h with rfl
    simp [FTPdLite.kick_stale_sweep, hf]
  | a :: b :: rest, s, h, hf => by
    rcases List.mem_cons.mp h with rfl | h2
    · have ha : is_stale timeout now s = false := hf
      simp [FTPdLite.kick_stale_sweep, ha]
    · by_cases ha : is_stale timeout now a = true
      · rcases List.mem_cons.mp h2 with rfl | h3
        · simp [FTPdLite.kick_stale_sweep, ha]
        · simp only [FTPdLite.kick_stale_sweep, ha, if_true]
          exact List.mem_cons_of_mem _ (sweep_keeps_fresh timeout now rest s h3 hf)
      · rw [Bool.not_eq_true] at ha
        simp only [FTPdLite.kick_stale_sweep, ha, if_false]
        exact List.mem_cons_of_mem _ (sweep_keeps_fresh timeout now (b :: rest) s h2 hf)

theorem find_session_nil (v : String) : FTPdLite.find_session v [] = [] := by
  unfold FTPdLite.find_session
  split
  · split <;> rfl
  · rfl

/-- Claim C7 (amended): a session is evicted by the sweep only when its
idle duration in whole minutes strictly exceeds the timeout; any session at
or below the threshold survives the sweep; a lone session above the
threshold is evicted and a subsequent address lookup finds nothing; and
concretely, with a 1-minute timeout, a session idle 121 seconds is evicted
(whereas 61 idle seconds are not enough, per the counterexample). -/
theorem C7_eviction_threshold (timeout now : Nat) (sessions : List Session)
    (s : Session) :
    (s ∈ sessions → (now - s.last_active_time) / 60 ≤ timeout →
      s ∈ FTPdLite.kick_stale_sweep timeout now sessions)
    ∧ (s ∈ sessions → s ∉ FTPdLite.kick_stale_sweep timeout now sessions →
      timeout < (now - s.last_active_time) / 60)
    ∧ (timeout < (now - s.last_active_time) / 60 →
      FTPdLite.kick_stale_sweep timeout now [s] = []
      ∧ FTPdLite.find_session s.client_ip
          (FTPdLite.kick_stale_sweep timeout now [s]) = [])
    ∧ FTPdLite.kick_stale_sweep 1 121 [mkSession "10.1.1.7" 6000 "/" 0] = [] := by
  refine ⟨fun hmem hle => ?_, fun hmem hnot => ?_, fun hgt => ?_, by decide⟩
  · apply sweep_keeps_fresh timeout now sessions s hmem
    simp [is_stale, idle_minutes]
    exact hle
  · by_contra hle
    rw [not_lt] at hle
    exact hnot (sweep_keeps_fresh timeout now sessions s hmem
      (by simp [is_stale, idle_minutes]; exact hle))
  · have hs : is_stale timeout now s = true := by
      simp [is_stale, idle_minutes]; exact hgt
    have h1 : FTPdLite.kick_stale_sweep timeout now [s] = [] := by
      simp [FTPdLite.kick_stale_sweep, hs]
    exact ⟨h1, by rw [h1, find_session_nil]⟩

/-- Witness for C7 (amended): a fresh session survives, a 121-second-idle
lone session is evicted and unfindable afterwards. -/
theorem C7_eviction_threshold_witness :
    bobSession ∈ FTPdLite.kick_stale_sweep 1 30 [bobSession]
    ∧ (FTPdLite.kick_stale_sweep 1 121 [bobSession] = []
      ∧ FTPdLite.find_session bobSession.client_ip
          (FTPdLite.kick_stale_sweep 1 121 [bobSession]) = []) :=
  ⟨(C7_eviction_threshold 1 30 [bobSession] bobSession).1 (by decide) (by decide),
   (C7_eviction_threshold 1 121 [bobSession] bobSession).2.2.1 (by decide)⟩

/-- Claim C7 counterexample: the idle-reaper threshold is 1 minute and the
session has been inactive for 61 seconds when the sweep runs, yet it is NOT
evicted — `(61 - 0) // 60 = 1` is not `> 1` — and the subsequent lookup by
its address still returns it, contradicting the claimed eviction. -/
theorem C7_61s_idle_session_survives :
    FTPdLite.kick_stale_sweep 1 61 [mkSession "10.1.1.7" 6000 "/" 0]
      = [mkSession "10.1.1.7" 6000 "/" 0]
    ∧ FTPdLite.find_session "10.1.1.7" [mkSession "10.1.1.7" 6000 "/" 0]
      = [mkSession "10.1.1.7" 6000 "/" 0] := by
  decide

/-- The USER handler (ftpdlite.py lines 1446-1468), whose result is the
reply code, the keep-session boolean and the updated session.  The source
consults only the `_accepting_connections` flag — never the credential
list, which is included here (unused) to mirror the claim's premise. -/
def FTPdLite.user (accepting : Bool) (_credentials : List String)
    (username : String) (s : Session) : Nat × Bool × Session :=
  if accepting = false ∧ username ≠ "root" then (421, false, s)
  else (331, true, { s with username := username })

/-- The PWD handler (ftpdlite.py lines 1024-1037): reply 257 with the
session's working directory in double quotes. -/
def FTPdLite.pwd (s : Session) : Nat × String :=
  (257, "\"" ++ s.working_dir ++ "\"")

/-- Claim C6 counterexample: with an empty credential list on an accepting
server, USER "bob" is answered 331 (password required), not 230 — the
handler never grants an anonymous login, whatever the credential list. -/
theorem C6_user_replies_331_not_230 :
    (FTPdLite.user true [] "bob" (mkSession "10.0.0.9" 5050 "/" 0)).1 = 331
    ∧ (FTPdLite.user true [] "bob" (mkSession "10.0.0.9" 5050 "/" 0)).1 ≠ 230 := by
  decide

/-- Claim C6 (amended): the USER handler ignores the credential list
entirely: on an accepting server every username is answered 331 with the
username recorded on the session; when the server is not accepting
connections a non-root username is answered 421 and the session ends; PWD
always replies 257 quoting the session's working directory (which is
initialized from the process working directory, not necessarily "/"). -/
theorem C6_user_always_password_prompt (creds : List String) (username : String)
    (s : Session) :
    ((FTPdLite.user true creds username s).1 = 331
      ∧ (FTPdLite.user true creds username s).2.1 = true
      ∧ (FTPdLite.user true creds username s).2.2 = { s with username := username })
    ∧ (username ≠ "root" →
        (FTPdLite.user false creds username s).1 = 421
        ∧ (FTPdLite.user false creds username s).2.1 = false)
    ∧ (FTPdLite.pwd s).1 = 257
    ∧ (FTPdLite.pwd s).2 = "\"" ++ s.working_dir ++ "\"" := by
  refine ⟨⟨?_, ?_, ?_⟩, fun h => ⟨?_, ?_⟩, rfl, rfl⟩ <;>
    simp_all [FTPdLite.user]

/-- Witness for C6 (amended): concrete replies for an anonymous username. -/
theorem C6_user_always_password_prompt_witness :
    (FTPdLite.user true [] "anonymous" bobSession).1 = 331
    ∧ (FTPdLite.user false [] "anonymous" bobSession).1 = 421 :=
  ⟨(C6_user_always_password_prompt [] "anonymous" bobSession).1.1,
   ((C6_user_always_password_prompt [] "anonymous" bobSession).2.1 (by decide)).1⟩

/-- Outcome of the accept-time check in `on_ctrl_connect`: the first reply
code sent, the registry afterwards, whether a session was registered, and
whether the handler closed the control connection in that branch. -/
structure AcceptOutcome where
  response : Nat
  sessions : List Session
  registered : Bool
  conn_closed : Bool
  deriving DecidableEq

/-- The accept-time gate of `FTPdLite.on_ctrl_connect` (ftpdlite.py lines
1595-1606): more than 10 live sessions or an existing session with the same
client address means a 421 reply; the refusal branch contains no call that
closes the control streams (`conn_closed := false`), it simply returns;
otherwise a fresh session is appended to the registry and 220 is sent. -/
def FTPdLite.on_ctrl_connect_accept (sessions : List Session) (client_ip : String)
    (client_port : Nat) (cwd0 : String) (now : Nat) : AcceptOutcome :=
  if 10 < sessions.length ∨ FTPdLite.find_session client_ip sessions ≠ [] then
    { response := 421, sessions := sessions, registered := false,
      conn_closed := false }
  else
    { response := 220,
      sessions := sessions ++ [mkSession client_ip client_port cwd0 now],
      registered := true, conn_closed := false }

/-- Claim C9 counterexample: a duplicate-address connection is answered 421
and the registry is unchanged — that much of the claim holds — but the
refusal branch never closes the connection (`conn_closed = false`), so the
claimed "closed immediately" is false on this code. -/
theorem C9_refused_connection_not_closed :
    FTPdLite.on_ctrl_connect_accept [mkSession "1.2.3.4" 5000 "/" 0]
        "1.2.3.4" 5001 "/" 7
      = { response := 421, sessions := [mkSession "1.2.3.4" 5000 "/" 0],
          registered := false, conn_closed := false } := by
  decide

/-- Claim C9 (amended): when the session ceiling is exceeded or an existing
session already has the connecting address, the reply is 421 and no session
is ever registered (the registry is returned unchanged), but the handler
does not explicitly close the refused connection; otherwise 220 is sent and
exactly the new session is appended. -/
theorem C9_refusal_does_not_register (sessions : List Session) (ip : String)
    (port : Nat) (cwd0 : String) (now : Nat) :
    ((10 < sessions.length ∨ FTPdLite.find_session ip sessions ≠ []) →
      FTPdLite.on_ctrl_connect_accept sessions ip port cwd0 now
        = { response := 421, sessions := sessions, registered := false,
            conn_closed := false })
    ∧ (¬(10 < sessions.length ∨ FTPdLite.find_session ip sessions ≠ []) →
      FTPdLite.on_ctrl_connect_accept sessions ip port cwd0 now
        = { response := 220,
            sessions := sessions ++ [mkSession ip port cwd0 now],
            registered := true, conn_closed := false }) := by
  constructor <;> intro h <;> simp [FTPdLite.on_ctrl_connect_accept, h]

/-- Witness for C9 (amended): a duplicate address is refused without
registration; a fresh address on a small registry is accepted. -/
theorem C9_refusal_does_not_register_witness :
    FTPdLite.on_ctrl_connect_accept [bobSession] "192.168.1.20" 9999 "/" 3
      = { response := 421, sessions := [bobSession], registered := false,
          conn_closed := false }
    ∧ FTPdLite.on_ctrl_connect_accept [bobSession] "10.9.9.9" 9999 "/" 3
      = { response := 220, sessions := [bobSession] ++ [mkSession "10.9.9.9" 9999 "/" 3],
          registered := true, conn_closed := false } :=
  ⟨(C9_refusal_does_not_register [bobSession] "192.168.1.20" 9999 "/" 3).1 (by decide),
   (C9_refusal_does_not_register [bobSession] "10.9.9.9" 9999 "/" 3).2 (by decide)⟩

/-- The optional data-channel handles a session may carry: reader and writer
streams and a passive listener, each present (`true`) or absent (`false`)
— the Python code probes for them via attribute existence. -/
structure DataChan where
  reader : Bool
  writer : Bool
  listener : Bool
  deriving DecidableEq

/-- `FTPdLite.close_data_connection` (ftpdlite.py lines 1514-1548): closes
and deletes whichever of the three handles exist — idempotently leaving a
session with no data-channel handles. -/
def FTPdLite.close_data_connection (_dc : DataChan) : DataChan :=
  { reader := false, writer := false, listener := false }

/-- `FTPdLite.verify_data_connection` (ftpdlite.py lines 1491-1512): ready
iff both the data reader and the data writer exist.  (The bounded 200 ms
retry re-probes the same state; in this pure model the two probes agree.) -/
def FTPdLite.verify_data_connection (dc : DataChan) : Bool :=
  dc.reader && dc.writer

/-- The RETR handler's effect on the data channel (ftpdlite.py lines
1054-1099), with the filesystem outcomes as booleans: `file_found` is the
`stat` probe, `read_ok` the open/read/send loop.  The result is the final
control-channel reply and the data-channel state on exit; only the
successful 226 path calls `close_data_connection`. -/
def FTPdLite.retr (param : Option String) (file_found read_ok : Bool)
    (dc : DataChan) : Option Nat × DataChan :=
  if param = none ∨ param = some "" then (some 501, dc)
  else if file_found = false then (some 550, dc)
  else if FTPdLite.verify_data_connection dc = false then (some 426, dc)
  else if read_ok = false then (some 451, dc)
  else (some 226, FTPdLite.close_data_connection dc)

/-- The STOR handler's effect on the data channel (ftpdlite.py lines
1368-1407): `access_ok` is the raw-path write-access check (see C1),
`write_ok` the open/receive/write loop; only the 226 path closes. -/
def FTPdLite.stor (param : Option String) (access_ok write_ok : Bool)
    (dc : DataChan) : Option Nat × DataChan :=
  if param = none ∨ param = some "" then (some 501, dc)
  else if access_ok = false then (some 550, dc)
  else if FTPdLite.verify_data_connection dc = false then (some 426, dc)
  else if write_ok = false then (some 451, dc)
  else (some 226, FTPdLite.close_data_connection dc)

/-- The LIST handler's effect on the data channel (ftpdlite.py lines
705-755): `dir_ok` is the `listdir` probe, `send_ok` the per-entry
stat-and-write loop, which the source does NOT wrap in try/except — a
stream error there propagates out of the handler with no response sent
(result code `none`); only the 226 path closes. -/
def FTPdLite.list (dir_ok send_ok : Bool) (dc : DataChan) :
    Option Nat × DataChan :=
  if dir_ok = false then (some 451, dc)
  else if FTPdLite.verify_data_connection dc = false then (some 426, dc)
  else if send_ok = false then (none, dc)
  else (some 226, FTPdLite.close_data_connection dc)

/-- The NLST handler's effect on the data channel (ftpdlite.py lines
805-849): like LIST, but the write is wrapped in try/except whose except
branch builds a 426 response coroutine without awaiting it, so no response
is actually delivered on that path (result code `none`) and the channels
stay; only the 226 path closes. -/
def FTPdLite.nlst (dir_ok send_ok : Bool) (dc : DataChan) :
    Option Nat × DataChan :=
  if dir_ok = false then (some 451, dc)
  else if FTPdLite.verify_data_connection dc = false then (some 426, dc)
  else if send_ok = false then (none, dc)
  else (some 226, FTPdLite.close_data_connection dc)

/-- Claim C8 counterexample: on RETR's read-error exit (451) the reader and
writer handles survive, and on LIST's not-ready exit (426) a pending
passive listener survives — the error exits do not close or clear the
data channel, contradicting the claimed every-exit-path teardown. -/
theorem C8_error_exits_keep_channels :
    FTPdLite.retr (some "f.txt") true false
        { reader := true, writer := true, listener := false }
      = (some 451, { reader := true, writer := true, listener := false })
    ∧ FTPdLite.list true true { reader := false, writer := false, listener := true }
      = (some 426, { reader := false, writer := false, listener := true })
    ∧ ({ reader := true, writer := true, listener := false } : DataChan)
        ≠ FTPdLite.close_data_connection
            { reader := true, writer := true, listener := false } := by
  decide

/-- Claim C8 (amended): for each of RETR, STOR, LIST and NLST the data
reader, writer and listener are closed and cleared exactly on the
successful-transfer exit (final reply 226); on every error exit — missing
parameter, failed filesystem probe, data channel not ready, or an error in
the transfer body — the handler returns with the session's data-channel
handles untouched, their cleanup deferred to session teardown or a later
successful transfer. -/
theorem C8_channels_cleared_only_on_success (param : Option String)
    (b1 b2 : Bool) (dc : DataChan) :
    ((FTPdLite.retr param b1 b2 dc).1 = some 226 →
      (FTPdLite.retr param b1 b2 dc).2
        = { reader := false, writer := false, listener := false })
    ∧ ((FTPdLite.retr param b1 b2 dc).1 ≠ some 226 →
      (FTPdLite.retr param b1 b2 dc).2 = dc)
    ∧ ((FTPdLite.stor param b1 b2 dc).1 = some 226 →
      (FTPdLite.stor param b1 b2 dc).2
        = { reader := false, writer := false, listener := false })
    ∧ ((FTPdLite.stor param b1 b2 dc).1 ≠ some 226 →
      (FTPdLite.stor param b1 b2 dc).2 = dc)
    ∧ ((FTPdLite.list b1 b2 dc).1 = some 226 →
      (FTPdLite.list b1 b2 dc).2
        = { reader := false, writer := false, listener := false })
    ∧ ((FTPdLite.list b1 b2 dc).1 ≠ some 226 →
      (FTPdLite.list b1 b2 dc).2 = dc)
    ∧ ((FTPdLite.nlst b1 b2 dc).1 = some 226 →
      (FTPdLite.nlst b1 b2 dc).2
        = { reader := false, writer := false, listener := false })
    ∧ ((FTPdLite.nlst b1 b2 dc).1 ≠ some 226 →
      (FTPdLite.nlst b1 b2 dc).2 = dc) := by
  unfold FTPdLite.retr FTPdLite.stor FTPdLite.list FTPdLite.nlst
    FTPdLite.close_data_connection
  refine ⟨?_, ?_, ?_, ?_, ?_, ?_, ?_, ?_⟩ <;> split_ifs <;> simp_all

/-- Witness for C8 (amended): a successful RETR clears all three handles; a
failed STOR write leaves them in place. -/
theorem C8_channels_cleared_only_on_success_witness :
    (FTPdLite.retr (some "a.bin") true true
        { reader := true, writer := true, listener := true }).2
      = { reader := false, writer := false, listener := false }
    ∧ (FTPdLite.stor (some "a.bin") true false
        { reader := true, writer := true, listener := true }).2
      = { reader := true, writer := true, listener := true } :=
  ⟨(C8_channels_cleared_only_on_success (some "a.bin") true true
      { reader := true, writer := true, listener := true }).1 (by decide),
   (C8_channels_cleared_only_on_success (some "a.bin") true false
      { reader := true, writer := true, listener := true }).2.2.2.1 (by decide)⟩

/-- UTF-8 encoding of a single character as byte values. -/
def utf8EncodeChar (c : Char) : List Nat :=
  let n := c.toNat
  if n < 128 then [n]
  else if n < 2048 then [192 + n / 64, 128 + n % 64]
  else if n < 65536 then [224 + n / 4096, 128 + n / 64 % 64, 128 + n % 64]
  else [240 + n / 262144, 128 + n / 4096 % 64, 128 + n / 64 % 64, 128 + n % 64]

/-- Python `bytes(s, "utf8")`, as a list of byte values. -/
def utf8Encode (s : String) : List Nat :=
  (s.data.map utf8EncodeChar).flatten

/-- The base64 alphabet used by `binascii.b2a_base64`. -/
def base64Alphabet : List Char :=
  "ABCDEFGHIJKLMNOPQRSTUVWXYZabcdefghijklmnopqrstuvwxyz0123456789+/".data

/-- The base64 character for a 6-bit value. -/
def b64char (n : Nat) : Char :=
  base64Alphabet.getD n 'A'

/-- The base64 encoding body: each group of 3 input bytes becomes 4 alphabet
characters, with '=' padding for a short final group. -/
def b2a_base64_body : List Nat → List Char
  | [] => []
  | [b1] =>
    let n := b1 % 256 * 65536
    [b64char (n / 262144), b64char (n / 4096 % 64), '=', '=']
  | [b1, b2] =>
    let n := b1 % 256 * 65536 + b2 % 256 * 256
    [b64char (n / 262144), b64char (n / 4096 % 64), b64char (n / 64 % 64), '=']
  | b1 :: b2 :: b3 :: rest =>
    let n := b1 % 256 * 65536 + b2 % 256 * 256 + b3 % 256
    b64char (n / 262144) :: b64char (n / 4096 % 64) :: b64char (n / 64 % 64)
      :: b64char (n % 64) :: b2a_base64_body rest

/-- `binascii.b2a_base64`: the base64 encoding plus a trailing newline. -/
def b2a_base64 (bs : List Nat) : String :=
  String.mk (b2a_base64_body bs ++ ['\n'])

/-- Python `s.rstrip("\n")`: drop every trailing newline. -/
def py_rstrip_newline (s : String) : String :=
  String.mk (s.data.reverse.dropWhile (fun ch => ch = '\n')).reverse

/-- The salt alphabet of `SHA256AES.generate_salt` (ftpdlite.py line 172). -/
def salt_valid_chars : List Char :=
  "./0123456789ABCDEFGHIJKLMNOPQRSTUVWXYZabcdefghijklmnopqrstuvwxyz".data

/-- `SHA256AES.create_salted_hash` (ftpdlite.py lines 179-189, sha256aes.py
lines 33-43), parameterized over the cryptographic collaborators: `aesF key
data` models `cryptolib.aes(key, MODE_ECB).encrypt(data)` and `shaF` models
`hashlib.sha256(...).digest()`.  The cleartext is UTF-8 encoded, zero-padded
to the next 16-byte boundary (a full extra block when already aligned, as in
the source), ECB-encrypted with the salt as key, hashed, base64-encoded,
and stripped of the trailing newline.  The source's
`assert len(salt) % 16 == 0` is carried as a hypothesis of the theorems. -/
def SHA256AES.create_salted_hash (shaF : List Nat → List Nat)
    (aesF : List Nat → List Nat → List Nat) (salt cleartext : String) : String :=
  let ct := utf8Encode cleartext
  let padded := ct ++ List.replicate (16 - ct.length % 16) 0
  let salted_pw := aesF (utf8Encode salt) padded
  py_rstrip_newline (b2a_base64 (shaF salted_pw))

/-- `SHA256AES.create_passwd_entry` (ftpdlite.py lines 191-195): the
`$5a$salt$digest` record.  The source draws a fresh 16-character salt from
`generate_salt`; the salt is a parameter here, with `generate_salt`'s
alphabet and the length constraint as hypotheses of the theorems. -/
def SHA256AES.create_passwd_entry (shaF : List Nat → List Nat)
    (aesF : List Nat → List Nat → List Nat) (salt cleartext : String) : String :=
  "$" ++ "5a" ++ "$" ++ salt ++ "$"
    ++ SHA256AES.create_salted_hash shaF aesF salt cleartext

/-- `SHA256AES.verify_passwd_entry` (ftpdlite.py lines 197-214): `some false`
for an entry whose '$' count is not 3 and for a digest mismatch, `some true`
for a digest match, and `none` — Python's implicit `None` — for a
well-formed entry whose algorithm tag is not "5a".  (When the count is 3
the split has exactly four fields, so the catch-all arm is unreachable.) -/
def SHA256AES.verify_passwd_entry (shaF : List Nat → List Nat)
    (aesF : List Nat → List Nat → List Nat) (hashed cleartext : String) :
    Option Bool :=
  if hashed.data.count '$' ≠ 3 then some false
  else
    match (splitOnChar '$' hashed.data).map (fun l => String.mk l) with
    | [_, hash_alg, salt, hashed_pw] =>
      if hash_alg ≠ "5a" then none
      else if hashed_pw ≠ SHA256AES.create_salted_hash shaF aesF salt cleartext then
        some false
      else some true
    | _ => none

theorem string_mk_nil : String.mk [] = "" := rfl

theorem splitOnChar_ne_nil (c : Char) : ∀ l, splitOnChar c l ≠ []
  | [] => by simp [splitOnChar]
  | x :: xs => by
    by_cases h : x = c
    · simp [splitOnChar, h]
    · simp only [splitOnChar, if_neg h]
      rcases hs : splitOnChar c xs with _ | ⟨p, ps⟩
      · simp
      · simp

theorem splitOnChar_cons_sep (c : Char) (l : List Char) :
    splitOnChar c (c :: l) = [] :: splitOnChar c l := by
  simp [splitOnChar]

theorem splitOnChar_of_not_mem (c : Char) : ∀ (l : List Char), c ∉ l →
    splitOnChar c l = [l]
  | [], _ => rfl
  | x :: xs, h => by
    have hx : ¬ x = c := fun hh => h (by rw [← hh]; exact List.mem_cons_self x xs)
    have hxs : c ∉ xs := fun hm => h (List.mem_cons_of_mem _ hm)
    simp only [splitOnChar, if_neg hx]
    rw [splitOnChar_of_not_mem c xs hxs]

theorem splitOnChar_append_sep (c : Char) :
    ∀ (l1 l2 : List Char), c ∉ l1 →
      splitOnChar c (l1 ++ c :: l2) = l1 :: splitOnChar c l2
  | [], l2, _ => by simp [splitOnChar]
  | x :: xs, l2, h => by
    have hx : ¬ x = c := fun hh => h (by rw [← hh]; exact List.mem_cons_self x xs)
    have hxs : c ∉ xs := fun hm => h (List.mem_cons_of_mem _ hm)
    simp only [List.cons_append, splitOnChar, if_neg hx]
    show (match splitOnChar c (xs ++ c :: l2) with
      | [] => [[x]]
      | p :: ps => (x :: p) :: ps) = (x :: xs) :: splitOnChar c l2
    rw [splitOnChar_append_sep c xs l2 hxs]

theorem splitOnChar_length (c : Char) : ∀ l : List Char,
    (splitOnChar c l).length = l.count c + 1
  | [] => by simp [splitOnChar]
  | x :: xs => by
    by_cases h : x = c
    · rw [h, splitOnChar_cons_sep]
      simp only [List.length_cons, splitOnChar_length c xs, List.count_cons_self]
    · simp only [splitOnChar, if_neg h]
      rcases hs : splitOnChar c xs with _ | ⟨p, ps⟩
      · exact absurd hs (splitOnChar_ne_nil c xs)
      · have hlen := splitOnChar_length c xs
        rw [hs] at hlen
        simp only [List.length_cons] at hlen ⊢
        have hcx : ¬ c = x := fun hh => h hh.symm
        have hcnt : (x :: xs).count c = xs.count c := by
          simp [List.count_cons, hcx]
        rw [hcnt]
        omega

theorem splitOnChar_parts (c : Char) : ∀ (l : List Char) (p : List Char),
    p ∈ splitOnChar c l → c ∉ p
  | [], p, h => by
    simp [splitOnChar] at h
    subst h
    simp
  | x :: xs, p, h => by
    by_cases hx : x = c
    · rw [hx, splitOnChar_cons_sep] at h
      rcases List.mem_cons.mp h with rfl | h2
      · simp
      · exact splitOnChar_parts c xs p h2
    · simp only [splitOnChar, if_neg hx] at h
      rcases hs : splitOnChar c xs with _ | ⟨q, qs⟩
      · exact absurd hs (splitOnChar_ne_nil c xs)
      · rw [hs] at h
        rcases List.mem_cons.mp h with rfl | h2
        · intro hc
          rcases List.mem_cons.mp hc with hcx | hq
          · exact hx hcx.symm
          · exact splitOnChar_parts c xs q
              (by rw [hs]; exact List.mem_cons_self q qs) hq
        · exact splitOnChar_parts c xs p
            (by rw [hs]; exact List.mem_cons_of_mem _ h2)

/-- Rejoining the pieces of `splitOnChar` with the separator. -/
def joinChar (c : Char) : List (List Char) → List Char
  | [] => []
  | [p] => p
  | p :: q :: ps => p ++ c :: joinChar c (q :: ps)

theorem joinChar_cons_cons (c x : Char) (p : List Char) (ps : List (List Char)) :
    joinChar c ((x :: p) :: ps) = x :: joinChar c (p :: ps) := by
  cases ps with
  | nil => rfl
  | cons q qs => simp [joinChar]

theorem splitOnChar_join (c : Char) : ∀ l : List Char,
    joinChar c (splitOnChar c l) = l
  | [] => rfl
  | x :: xs => by
    by_cases hx : x = c
    · rw [hx, splitOnChar_cons_sep]
      rcases hs : splitOnChar c xs with _ | ⟨p, ps⟩
      · exact absurd hs (splitOnChar_ne_nil c xs)
      · have ih := splitOnChar_join c xs
        rw [hs] at ih
        simp [joinChar, ih]
    · simp only [splitOnChar, if_neg hx]
      rcases hs : splitOnChar c xs with _ | ⟨p, ps⟩
      · exact absurd hs (splitOnChar_ne_nil c xs)
      · have ih := splitOnChar_join c xs
        rw [hs] at ih
        rw [joinChar_cons_cons, ih]

theorem b64char_mem (n : Nat) : b64char n ∈ base64Alphabet := by
  unfold b64char
  rw [List.getD_eq_getElem?_getD]
  rcases h : base64Alphabet[n]? with _ | c
  · simp only [Option.getD_none]
    decide
  · obtain ⟨hlt, hg⟩ := List.getElem?_eq_some.mp h
    simp only [Option.getD_some]
    exact hg ▸ List.getElem_mem hlt

theorem mem_b2a_base64_body : ∀ (bs : List Nat) (ch : Char),
    ch ∈ b2a_base64_body bs → ch ∈ base64Alphabet ∨ ch = '='
  | [], ch, h => absurd h (by simp [b2a_base64_body])
  | [b1], ch, h => by
    simp only [b2a_base64_body, List.mem_cons, List.not_mem_nil, or_false] at h
    rcases h with h | h | h | h
    · exact Or.inl (h ▸ b64char_mem _)
    · exact Or.inl (h ▸ b64char_mem _)
    · exact Or.inr h
    · exact Or.inr h
  | [b1, b2], ch, h => by
    simp only [b2a_base64_body, List.mem_cons, List.not_mem_nil, or_false] at h
    rcases h with h | h | h | h
    · exact Or.inl (h ▸ b64char_mem _)
    · exact Or.inl (h ▸ b64char_mem _)
    · exact Or.inl (h ▸ b64char_mem _)
    · exact Or.inr h
  | b1 :: b2 :: b3 :: rest, ch, h => by
    simp only [b2a_base64_body, List.mem_cons] at h
    rcases h with h | h | h | h | h
    · exact Or.inl (h ▸ b64char_mem _)
    · exact Or.inl (h ▸ b64char_mem _)
    · exact Or.inl (h ▸ b64char_mem _)
    · exact Or.inl (h ▸ b64char_mem _)
    · exact mem_b2a_base64_body rest ch h

theorem b2a_base64_body_no_dollar (bs : List Nat) :
    '$' ∉ b2a_base64_body bs := by
  intro h
  rcases mem_b2a_base64_body bs '$' h with h2 | h2
  · revert h2
    decide
  · exact absurd h2 (by decide)

theorem b2a_base64_body_no_newline (bs : List Nat) :
    '\n' ∉ b2a_base64_body bs := by
  intro h
  rcases mem_b2a_base64_body bs '\n' h with h2 | h2
  · revert h2
    decide
  · exact absurd h2 (by decide)

theorem rstrip_b2a_base64_data (bs : List Nat) :
    (py_rstrip_newline (b2a_base64 bs)).data = b2a_base64_body bs := by
  unfold py_rstrip_newline b2a_base64
  show ((b2a_base64_body bs ++ ['\n']).reverse.dropWhile (fun ch => ch = '\n')).reverse
    = b2a_base64_body bs
  rw [List.reverse_append]
  simp only [List.reverse_cons, List.reverse_nil, List.nil_append, List.singleton_append]
  rw [List.dropWhile_cons]
  simp only [decide_True, if_true]
  have hself : (b2a_base64_body bs).reverse.dropWhile (fun ch => ch = '\n')
      = (b2a_base64_body bs).reverse := by
    cases hb : (b2a_base64_body bs).reverse with
    | nil => rfl
    | cons y ys =>
      rw [List.dropWhile_cons]
      have hy : y ∈ b2a_base64_body bs := by
        rw [← List.mem_reverse, hb]
        exact List.mem_cons_self y ys
      have hyn : ¬ (y = '\n') := fun hh => b2a_base64_body_no_newline bs (hh ▸ hy)
      simp [hyn]
  rw [hself, List.reverse_reverse]

theorem create_salted_hash_data (shaF : List Nat → List Nat)
    (aesF : List Nat → List Nat → List Nat) (salt pw : String) :
    (SHA256AES.create_salted_hash shaF aesF salt pw).data
      = b2a_base64_body (shaF (aesF (utf8Encode salt)
          (utf8Encode pw ++ List.replicate (16 - (utf8Encode pw).length % 16) 0))) := by
  unfold SHA256AES.create_salted_hash
  exact rstrip_b2a_base64_data _

theorem dollar_not_in_digest (shaF : List Nat → List Nat)
    (aesF : List Nat → List Nat → List Nat) (salt pw : String) :
    '$' ∉ (SHA256AES.create_salted_hash shaF aesF salt pw).data := by
  rw [create_salted_hash_data]
  exact b2a_base64_body_no_dollar _

theorem tagged_entry_data (alg salt dig : String) :
    ("$" ++ alg ++ "$" ++ salt ++ "$" ++ dig).data
      = '$' :: (alg.data ++ '$' :: (salt.data ++ '$' :: dig.data)) := by
  simp [String.data_append]

theorem verify_tagged_entry (shaF : List Nat → List Nat)
    (aesF : List Nat → List Nat → List Nat) (alg salt dig pw : String)
    (h1 : '$' ∉ alg.data) (h2 : '$' ∉ salt.data) (h3 : '$' ∉ dig.data) :
    SHA256AES.verify_passwd_entry shaF aesF
        ("$" ++ alg ++ "$" ++ salt ++ "$" ++ dig) pw
      = if alg ≠ "5a" then none
        else if dig ≠ SHA256AES.create_salted_hash shaF aesF salt pw then some false
        else some true := by
  have hcount : ('$' :: (alg.data ++ '$' :: (salt.data ++ '$' :: dig.data))).count '$'
      = 3 := by
    simp [List.count_cons, List.count_append, List.count_eq_zero.mpr h1,
      List.count_eq_zero.mpr h2, List.count_eq_zero.mpr h3]
  have hsplit : splitOnChar '$'
        ('$' :: (alg.data ++ '$' :: (salt.data ++ '$' :: dig.data)))
      = [[], alg.data, salt.data, dig.data] := by
    rw [splitOnChar_cons_sep, splitOnChar_append_sep '$' alg.data _ h1,
      splitOnChar_append_sep '$' salt.data _ h2,
      splitOnChar_of_not_mem '$' dig.data h3]
  unfold SHA256AES.verify_passwd_entry
  rw [tagged_entry_data, hcount, hsplit]
  simp [string_mk_data, string_mk_nil]

/-- Claim C4: for every pair of cryptographic collaborators, every cleartext
password and every salt over `generate_salt`'s alphabet whose length is a
multiple of 16 (the source's assert), verifying the generated entry against
the same cleartext yields true, and mutating any single character of the
stored base64 digest portion to a different character makes verification of
the mutated entry yield false. -/
theorem C4_salted_hash_round_trip (shaF : List Nat → List Nat)
    (aesF : List Nat → List Nat → List Nat) (salt pw : String)
    (hlen : salt.length % 16 = 0)
    (hsalt : ∀ ch ∈ salt.data, ch ∈ salt_valid_chars) :
    SHA256AES.verify_passwd_entry shaF aesF
        (SHA256AES.create_passwd_entry shaF aesF salt pw) pw = some true
    ∧ (∀ (i : Nat) (ch dch : Char),
        (SHA256AES.create_salted_hash shaF aesF salt pw).data[i]? = some dch →
        ch ≠ dch →
        SHA256AES.verify_passwd_entry shaF aesF
          ("$" ++ "5a" ++ "$" ++ salt ++ "$"
            ++ String.mk ((SHA256AES.create_salted_hash shaF aesF salt pw).data.set i ch))
          pw = some false) := by
  have h2 : '$' ∉ salt.data := by
    intro hm
    have := hsalt '$' hm
    revert this
    decide
  have h3 : '$' ∉ (SHA256AES.create_salted_hash shaF aesF salt pw).data :=
    dollar_not_in_digest shaF aesF salt pw
  constructor
  · unfold SHA256AES.create_passwd_entry
    rw [verify_tagged_entry shaF aesF "5a" salt _ pw (by decide) h2 h3]
    simp
  · intro i ch dch hget hne
    obtain ⟨hlt, hgetd⟩ := List.getElem?_eq_some.mp hget
    by_cases hch : ch = '$'
    · subst hch
      have hmem : '$' ∈ (SHA256AES.create_salted_hash shaF aesF salt pw).data.set i '$' := by
        have hlt2 : i < ((SHA256AES.create_salted_hash shaF aesF salt pw).data.set i '$').length := by
          simpa using hlt
        have h4 := List.getElem_mem hlt2
        rwa [List.getElem_set_self hlt2] at h4
      have hcnt : ("$" ++ "5a" ++ "$" ++ salt ++ "$"
          ++ String.mk ((SHA256AES.create_salted_hash shaF aesF salt pw).data.set i '$')).data.count '$'
          ≠ 3 := by
        rw [tagged_entry_data]
        have hpos : 0 < ((SHA256AES.create_salted_hash shaF aesF salt pw).data.set i '$').count '$' :=
          List.count_pos_iff.mpr hmem
        simp [List.count_cons, List.count_append, List.count_eq_zero.mpr h2]
        omega
      unfold SHA256AES.verify_passwd_entry
      rw [if_pos hcnt]
    · have h3' : '$' ∉ (SHA256AES.create_salted_hash shaF aesF salt pw).data.set i ch := by
        intro hm
        rcases List.mem_or_eq_of_mem_set hm with hm2 | hm2
        · exact h3 hm2
        · exact hch hm2.symm
      rw [verify_tagged_entry shaF aesF "5a" salt _ pw (by decide) h2 h3']
      have hne2 : String.mk ((SHA256AES.create_salted_hash shaF aesF salt pw).data.set i ch)
          ≠ SHA256AES.create_salted_hash shaF aesF salt pw := by
        intro heq
        have hd := congrArg String.data heq
        rw [show (String.mk ((SHA256AES.create_salted_hash shaF aesF salt pw).data.set i ch)).data
            = (SHA256AES.create_salted_hash shaF aesF salt pw).data.set i ch from rfl] at hd
        have h5 : (SHA256AES.create_salted_hash shaF aesF salt pw).data.get ⟨i, hlt⟩ = ch := by
          rw [List.get_eq_getElem, List.getElem_of_eq hd.symm hlt]
          exact List.getElem_set_self _
        have h6 : (SHA256AES.create_salted_hash shaF aesF salt pw).data.get ⟨i, hlt⟩ = dch := by
          rw [List.get_eq_getElem]
          exact hgetd
        exact hne (h5.symm.trans h6)
      simp [hne2]

/-- Witness for C4 with identity-style collaborators: a constant two-byte
digest function and an identity cipher, the 16-character salt
"0123456789ABCDEF" and password "secret"; the digest is "AAE=", the entry
round-trips to true, and mutating digest position 0 from 'A' to 'B' makes
verification return false. -/
theorem C4_salted_hash_round_trip_witness :
    SHA256AES.verify_passwd_entry (fun _ => [0, 1]) (fun _ d => d)
        (SHA256AES.create_passwd_entry (fun _ => [0, 1]) (fun _ d => d)
          "0123456789ABCDEF" "secret") "secret" = some true
    ∧ SHA256AES.verify_passwd_entry (fun _ => [0, 1]) (fun _ d => d)
        ("$" ++ "5a" ++ "$" ++ "0123456789ABCDEF" ++ "$"
          ++ String.mk ((SHA256AES.create_salted_hash (fun _ => [0, 1]) (fun _ d => d)
              "0123456789ABCDEF" "secret").data.set 0 'B'))
        "secret" = some false :=
  ⟨(C4_salted_hash_round_trip (fun _ => [0, 1]) (fun _ d => d) "0123456789ABCDEF"
      "secret" (by decide) (by decide)).1,
   (C4_salted_hash_round_trip (fun _ => [0, 1]) (fun _ d => d) "0123456789ABCDEF"
      "secret" (by decide) (by decide)).2 0 'B' 'A' (by decide) (by decide)⟩

theorem exists_four_of_length {α : Type} : ∀ (l : List α), l.length = 4 →
    ∃ a b c d, l = [a, b, c, d]
  | [a, b, c, d], _ => ⟨a, b, c, d, rfl⟩
  | [], h => by simp at h
  | [_], h => by simp at h
  | [_, _], h => by simp at h
  | [_, _, _], h => by simp at h
  | _ :: _ :: _ :: _ :: _ :: t, h => by
    simp only [List.length_cons] at h
    omega

/-- Claim C10: `verify_passwd_entry` returns `none` — Python's implicit
`None`, which the caller `passwd` treats as a failed login only because it
is falsy — for every tagged entry `$alg$salt$digest` whose algorithm tag is
not "5a"; the boolean false is returned exactly for an entry whose '$'
count differs from 3 or for a "5a"-tagged entry whose stored digest differs
from the digest recomputed from the entry's salt and the cleartext. -/
theorem C10_verify_return_values (shaF : List Nat → List Nat)
    (aesF : List Nat → List Nat → List Nat) (pw : String) :
    (∀ alg salt dig : String, '$' ∉ alg.data → '$' ∉ salt.data → '$' ∉ dig.data →
      alg ≠ "5a" →
      SHA256AES.verify_passwd_entry shaF aesF
        ("$" ++ alg ++ "$" ++ salt ++ "$" ++ dig) pw = none)
    ∧ (∀ hashed : String, hashed.data.count '$' ≠ 3 →
      SHA256AES.verify_passwd_entry shaF aesF hashed pw = some false)
    ∧ (∀ hashed : String,
      SHA256AES.verify_passwd_entry shaF aesF hashed pw = some false →
      hashed.data.count '$' ≠ 3
      ∨ ∃ pre salt2 dig2 : List Char,
          hashed.data = pre ++ '$' :: ("5a".data ++ '$' :: (salt2 ++ '$' :: dig2))
          ∧ String.mk dig2
              ≠ SHA256AES.create_salted_hash shaF aesF (String.mk salt2) pw) := by
  refine ⟨fun alg salt dig h1 h2 h3 halg => ?_, fun hashed hc => ?_,
    fun hashed hv => ?_⟩
  · rw [verify_tagged_entry shaF aesF alg salt dig pw h1 h2 h3, if_pos halg]
  · unfold SHA256AES.verify_passwd_entry
    rw [if_pos hc]
  · by_cases hc : hashed.data.count '$' = 3
    · right
      have hlen : (splitOnChar '$' hashed.data).length = 4 := by
        rw [splitOnChar_length, hc]
      obtain ⟨a, b, c2, d, hsp⟩ := exists_four_of_length _ hlen
      have hjoin := splitOnChar_join '$' hashed.data
      rw [hsp] at hjoin
      simp only [joinChar] at hjoin
      unfold SHA256AES.verify_passwd_entry at hv
      rw [if_neg (fun hh => hh hc), hsp] at hv
      simp only [List.map_cons, List.map_nil] at hv
      by_cases hb : String.mk b = "5a"
      · rw [hb, if_neg (by simp)] at hv
        by_cases hd : String.mk d
            ≠ SHA256AES.create_salted_hash shaF aesF (String.mk c2) pw
        · refine ⟨a, c2, d, ?_, hd⟩
          have hbdata : b = "5a".data := congrArg String.data hb
          rw [← hjoin, hbdata]
        · rw [if_neg hd] at hv
          exact absurd hv (by simp)
      · rw [if_pos hb] at hv
        exact absurd hv (by simp)
    · exact Or.inl hc

/-- Witness for C10: an entry with unknown tag "6a" yields `none`; an entry
without the `$`-structure yields the boolean false. -/
theorem C10_verify_return_values_witness :
    SHA256AES.verify_passwd_entry (fun _ => [0]) (fun _ d => d)
        ("$" ++ "6a" ++ "$" ++ "SALT" ++ "$" ++ "xyz") "pw" = none
    ∧ SHA256AES.verify_passwd_entry (fun _ => [0]) (fun _ d => d)
        "cleartextsecret" "pw" = some false :=
  ⟨(C10_verify_return_values (fun _ => [0]) (fun _ d => d) "pw").1
      "6a" "SALT" "xyz" (by decide) (by decide) (by decide) (by decide),
   (C10_verify_return_values (fun _ => [0]) (fun _ d => d) "pw").2.1
      "cleartextsecret" (by decide)⟩
